import Mathlib

/-!
Verification of the TaskTrack server against its design specification.

The definitions below are a shallow embedding of the TypeScript sources:
- `src/server/src/services/taskService.ts` (listTasks, getTask, updateTask,
  deleteTask, getStats),
- `src/server/src/controllers/taskController.ts` (getOne, update, remove),
- `src/server/src/services/authService.ts` (registerUser, loginUser),
- `src/server/src/middleware/validation.ts` (taskValidators.list),
- `src/server/src/middleware/errorHandler.ts` (errorHandler),
- the `authenticateToken` middleware as quoted in
  `TaskTrack_Architecture_Analysis.md` §3.2.1.

Modelling conventions: MongoDB object ids are `Nat`; dates are `Nat`
timestamps; the document store is a `List Task` in insertion order
(`findOne` / `findOneAndUpdate` / `findOneAndDelete` act on the first
match); JavaScript `undefined` vs a present value is `Option`; for the
update payload's `dueDate`, `Option (Option Nat)` distinguishes absent
(`none`), JSON `null` (`some none`) and a date (`some (some d)`).
JavaScript number arithmetic in `getStats` is modelled over `ℚ`
(`Math.round` is `round`, rounding half up). External primitives
(jwt.sign / jwt.verify / bcrypt) are function parameters.
-/

namespace TaskTrack

/-- A task document (`ITask` in `models/Task.ts`): status and priority are
stored as strings (the service filters compare raw strings against the
enumerated lists, so the embedding keeps them as `String`). -/
structure Task where
  id : Nat
  userId : Nat
  title : String
  description : Option String
  status : String
  priority : String
  dueDate : Option Nat
  createdAt : Nat
deriving DecidableEq, Repr

/-- The valid status values, from `['pending', 'in-progress', 'completed']`
in `taskService.ts`. -/
def validStatuses : List String := ["pending", "in-progress", "completed"]

/-- The valid priority values, from `['low', 'medium', 'high']` in
`taskService.ts`. -/
def validPriorities : List String := ["low", "medium", "high"]

/-- Query-string filters for the list endpoint: each field is absent or a
raw string, as in `listTasks`'s `filters` argument. -/
structure ListFilters where
  status : Option String := none
  priority : Option String := none
  sortBy : Option String := none
  sortOrder : Option String := none
deriving DecidableEq, Repr

/-- The status conjunct of the Mongo query built by `listTasks`:
`if (status && validStatuses.includes(status)) query.status = status`. A
falsy (`""`) or unlisted value adds no constraint. -/
def statusGuard (s : Option String) (t : Task) : Bool :=
  match s with
  | none => true
  | some s => if s != "" && validStatuses.contains s then t.status == s else true

/-- The priority conjunct of the Mongo query built by `listTasks`. -/
def priorityGuard (p : Option String) (t : Task) : Bool :=
  match p with
  | none => true
  | some p => if p != "" && validPriorities.contains p then t.priority == p else true

/-- Comparison of optional dates: Mongo sorts documents missing the field
before documents that have it (ascending). -/
def cmpOpt : Option Nat → Option Nat → Ordering
  | none, none => .eq
  | none, some _ => .lt
  | some _, none => .gt
  | some a, some b => compare a b

/-- The sort key comparison built by `listTasks`'s `sortOptions`: `dueDate`
and `priority` have dedicated branches; the final branch sorts by the named
field (`createdAt` or `title`), and a name matching no field imposes no
order. Priorities compare as plain strings, exactly as Mongo compares the
stored values. -/
def taskFieldCmp (sortBy : String) (t u : Task) : Ordering :=
  if sortBy == "dueDate" then cmpOpt t.dueDate u.dueDate
  else if sortBy == "priority" then compare t.priority u.priority
  else if sortBy == "createdAt" then compare t.createdAt u.createdAt
  else if sortBy == "title" then compare t.title u.title
  else Ordering.eq

/-- Direction handling: `sortOrder === 'asc' ? 1 : -1` — anything other
than `"asc"` sorts descending. -/
def taskCmp (sortBy sortOrder : String) (t u : Task) : Ordering :=
  if sortOrder == "asc" then taskFieldCmp sortBy t u else (taskFieldCmp sortBy t u).swap

/-- Not-greater test used by the stable insertion sort below. -/
def taskLe (sortBy sortOrder : String) (t u : Task) : Bool :=
  match taskCmp sortBy sortOrder t u with
  | .gt => false
  | _ => true

/-- Stable insertion of one task into an already-sorted list. -/
def insertByLe (le : Task → Task → Bool) (t : Task) : List Task → List Task
  | [] => [t]
  | u :: us => if le t u then t :: u :: us else u :: insertByLe le t us

/-- Stable insertion sort, modelling `.sort(sortOptions)` on the query
result. -/
def sortByLe (le : Task → Task → Bool) : List Task → List Task
  | [] => []
  | t :: ts => insertByLe le t (sortByLe le ts)

/-- `listTasks` from `taskService.ts`: the query always conjoins `userId`
with the (guarded) status and priority filters, then sorts; `sortBy`
defaults to `"createdAt"` and `sortOrder` to `"desc"`. -/
def listTasks (store : List Task) (userId : Nat) (f : ListFilters) : List Task :=
  let sortBy := f.sortBy.getD "createdAt"
  let sortOrder := f.sortOrder.getD "desc"
  sortByLe (taskLe sortBy sortOrder)
    (store.filter fun t =>
      t.userId == userId && statusGuard f.status t && priorityGuard f.priority t)

/-- `getTask` from `taskService.ts`: `Task.findOne({ _id: id, userId })`. -/
def getTask (store : List Task) (userId id : Nat) : Option Task :=
  store.find? fun t => t.id == id && t.userId == userId

/-- Partial update payload for `updateTask`. `dueDate`'s outer `Option` is
presence in the payload, the inner one distinguishes `null` from a date. -/
structure UpdatePayload where
  title : Option String := none
  description : Option String := none
  status : Option String := none
  priority : Option String := none
  dueDate : Option (Option Nat) := none
deriving DecidableEq, Repr

/-- The `$set` document built by `updateTask`'s spread expressions applied
to a stored task: `title`, `status`, `priority` are set only when truthy
(present and nonempty); `description` when present (`!== undefined`);
`dueDate` when present, with `payload.dueDate ?? null` clearing it on
`null`. -/
def applyUpdate (p : UpdatePayload) (t : Task) : Task :=
  { t with
    title := match p.title with
      | some s => if s != "" then s else t.title
      | none => t.title
    description := match p.description with
      | some d => some d
      | none => t.description
    status := match p.status with
      | some s => if s != "" then s else t.status
      | none => t.status
    priority := match p.priority with
      | some s => if s != "" then s else t.priority
      | none => t.priority
    dueDate := match p.dueDate with
      | some d => d
      | none => t.dueDate }

/-- Replace the first task matching `pred` (the document
`findOneAndUpdate` acts on). -/
def updateFirst (pred : Task → Bool) (f : Task → Task) : List Task → List Task
  | [] => []
  | t :: ts => if pred t then f t :: ts else t :: updateFirst pred f ts

/-- Remove the first task matching `pred` (the document `findOneAndDelete`
acts on). -/
def removeFirst (pred : Task → Bool) : List Task → List Task
  | [] => []
  | t :: ts => if pred t then ts else t :: removeFirst pred ts

/-- `updateTask` from `taskService.ts`:
`Task.findOneAndUpdate({ _id: id, userId }, ..., { new: true })` — returns
the updated document (or `none` when no owned task matches) together with
the resulting store. -/
def updateTask (store : List Task) (userId id : Nat) (p : UpdatePayload) :
    Option Task × List Task :=
  match store.find? (fun t => t.id == id && t.userId == userId) with
  | none => (none, store)
  | some t =>
      (some (applyUpdate p t),
       updateFirst (fun t => t.id == id && t.userId == userId) (applyUpdate p) store)

/-- `deleteTask` from `taskService.ts`:
`Task.findOneAndDelete({ _id: id, userId })`. -/
def deleteTask (store : List Task) (userId id : Nat) : Option Task × List Task :=
  match store.find? (fun t => t.id == id && t.userId == userId) with
  | none => (none, store)
  | some t => (some t, removeFirst (fun t => t.id == id && t.userId == userId) store)

/-- An HTTP response body, as produced by the task controller. -/
inductive RespBody
  | task (t : Task)
  | tasks (l : List Task)
  | msg (m : String)
deriving DecidableEq, Repr

/-- An HTTP response: status code plus JSON body. -/
structure Resp where
  status : Nat
  body : RespBody
deriving DecidableEq, Repr

/-- `getOne` from `taskController.ts`: 404 `'Task not found'` when the
service returns nothing. -/
def getOne (store : List Task) (userId id : Nat) : Resp :=
  match getTask store userId id with
  | none => ⟨404, .msg "Task not found"⟩
  | some t => ⟨200, .task t⟩

/-- A `PUT /api/tasks/:id` request body (already past validation). -/
structure UpdateBody where
  title : Option String := none
  description : Option String := none
  status : Option String := none
  priority : Option String := none
  dueDate : Option (Option Nat) := none
deriving DecidableEq, Repr

/-- The payload `taskController.update` passes to the service: every field
is forwarded, except that `dueDate: req.body.dueDate ?? undefined` turns a
JSON `null` into an absent field. -/
def controllerPayload (b : UpdateBody) : UpdatePayload :=
  { title := b.title
    description := b.description
    status := b.status
    priority := b.priority
    dueDate := match b.dueDate with
      | some (some d) => some (some d)
      | some none => none
      | none => none }

/-- `update` from `taskController.ts`. -/
def update (store : List Task) (userId id : Nat) (b : UpdateBody) :
    Resp × List Task :=
  match updateTask store userId id (controllerPayload b) with
  | (none, s) => (⟨404, .msg "Task not found"⟩, s)
  | (some t, s) => (⟨200, .task t⟩, s)

/-- The `PUT /:id` handler of the inline router version in
`routes/tasks.ts`: it builds the same `$set` document directly from the
body, where `...(dueDate !== undefined && { dueDate: dueDate ? new
Date(dueDate) : null })` preserves the null-vs-absent distinction. -/
def inlinePut (store : List Task) (userId id : Nat) (b : UpdateBody) :
    Resp × List Task :=
  match updateTask store userId id
      { title := b.title, description := b.description, status := b.status,
        priority := b.priority, dueDate := b.dueDate } with
  | (none, s) => (⟨404, .msg "Task not found"⟩, s)
  | (some t, s) => (⟨200, .task t⟩, s)

/-- `remove` from `taskController.ts`. -/
def remove (store : List Task) (userId id : Nat) : Resp × List Task :=
  match deleteTask store userId id with
  | (none, s) => (⟨404, .msg "Task not found"⟩, s)
  | (some _, s) => (⟨200, .msg "Task deleted successfully"⟩, s)

/-- A `$group: { _id: '$key', count: { $sum: 1 } }` aggregation over a list
of tasks: one `(value, count)` pair per distinct key value, in first-seen
order. -/
def groupCount (key : Task → String) (ts : List Task) : List (String × Nat) :=
  (ts.map key).dedup.map fun s => (s, ts.countP fun t => key t == s)

/-- The statistics object returned by `getStats`. -/
structure Stats where
  totalTasks : Nat
  completionRate : ℤ
  statusBreakdown : List (String × Nat)
  priorityBreakdown : List (String × Nat)
deriving DecidableEq, Repr

/-- `getStats` from `taskService.ts`: two `$match`+`$group` pipelines over
the caller's tasks, `countDocuments({ userId })`, the completed count read
back from the status breakdown with
`stats.find(s => s._id === 'completed')?.count || 0`, and
`completionRate = totalTasks > 0 ? Math.round(completedTasks / totalTasks
* 100) : 0`. -/
def getStats (store : List Task) (userId : Nat) : Stats :=
  let mine := store.filter fun t => t.userId == userId
  let stats := groupCount Task.status mine
  let priorityStats := groupCount Task.priority mine
  let totalTasks := mine.length
  let completedTasks := ((stats.find? fun p => p.1 == "completed").map Prod.snd).getD 0
  let completionRate : ℤ :=
    if totalTasks > 0 then round ((completedTasks : ℚ) / (totalTasks : ℚ) * 100) else 0
  ⟨totalTasks, completionRate, stats, priorityStats⟩

/-- The `taskValidators.list` request-boundary check from
`middleware/validation.ts`: each query field is optional, and when present
must belong to the enumerated list (`isIn`). A failing check yields a 400
`ValidationFailure` before the service runs. -/
def listQueryValid (f : ListFilters) : Bool :=
  (match f.status with
   | none => true
   | some s => validStatuses.contains s)
  && (match f.priority with
      | none => true
      | some p => validPriorities.contains p)
  && (match f.sortBy with
      | none => true
      | some s => ["createdAt", "dueDate", "priority"].contains s)
  && (match f.sortOrder with
      | none => true
      | some s => ["asc", "desc"].contains s)

/-- A user record (`IUser` in `models/User.ts`); `password` holds the
bcrypt hash produced by the pre-save hook. -/
structure User where
  id : Nat
  username : String
  email : String
  password : String
deriving DecidableEq, Repr

/-- Outcome of `registerUser` / `loginUser`: the `{ error: { status,
message } }` object or the `{ token, user }` object. -/
inductive AuthOutcome
  | failure (status : Nat) (message : String)
  | success (token : String) (userId : Nat) (username : String) (email : String)
deriving DecidableEq, Repr

/-- `registerUser` from `authService.ts`. `bcryptHash` models the pre-save
salted hash, `sign` models `jwt.sign({ userId }, secret, { expiresIn:
'7d' })`, `secret` is `process.env.JWT_SECRET`, and `newId` the id Mongo
assigns. `Except.error` is a thrown exception (missing `JWT_SECRET` —
note the user document is saved before that check). The second component
is the user store after the call. -/
def registerUser (users : List User) (bcryptHash : String → String)
    (secret : Option String) (sign : Nat → String → String) (newId : Nat)
    (username email password : String) : Except String AuthOutcome × List User :=
  match users.find? (fun u => u.email == email || u.username == username) with
  | some existing =>
      let message :=
        if existing.email = email then "Email already registered" else "Username already taken"
      (.ok (.failure 400 message), users)
  | none =>
      let user : User := ⟨newId, username, email, bcryptHash password⟩
      match secret with
      | none =>
          (.error "JWT_SECRET is not defined in environment variables", users ++ [user])
      | some s =>
          (.ok (.success (sign user.id s) user.id user.username user.email), users ++ [user])

/-- `loginUser` from `authService.ts`. `bcryptCompare candidate hash`
models `bcrypt.compare` as used by `user.comparePassword`. -/
def loginUser (users : List User) (bcryptCompare : String → String → Bool)
    (secret : Option String) (sign : Nat → String → String)
    (email password : String) : Except String AuthOutcome :=
  match users.find? (fun u => u.email == email) with
  | none => .ok (.failure 401 "Invalid credentials")
  | some user =>
      if !(bcryptCompare password user.password) then .ok (.failure 401 "Invalid credentials")
      else
        match secret with
        | none => .error "JWT_SECRET is not defined in environment variables"
        | some s => .ok (.success (sign user.id s) user.id user.username user.email)

/-- Claims decoded from a verified token: `{ userId }`. -/
structure TokenClaims where
  userId : Nat
deriving DecidableEq, Repr

/-- Result of the authentication gate: a rejection response or the
resolved user attached to the request. -/
inductive GateResult
  | rejected (status : Nat) (message : String)
  | ok (u : User)
deriving DecidableEq, Repr

/-- Splitting accumulator for `splitOnSpace`. -/
def splitOnSpaceAux (cur : List Char) : List Char → List (List Char)
  | [] => [cur.reverse]
  | c :: cs =>
      if c = ' ' then cur.reverse :: splitOnSpaceAux [] cs
      else splitOnSpaceAux (c :: cur) cs

/-- JavaScript `s.split(' ')`: split at every single space character
(`"".split(' ')` is `[""]`, a trailing space yields a trailing `""`). -/
def splitOnSpace (s : String) : List String :=
  (splitOnSpaceAux [] s.toList).map fun cs => String.mk cs

/-- Token extraction in `authenticateToken`:
`const token = authHeader && authHeader.split(' ')[1]; if (!token) ...` —
a missing header, a header with no second space-separated chunk, or an
empty chunk, all leave `token` falsy. -/
def extractToken : Option String → Option String
  | none => none
  | some h =>
      match (splitOnSpace h).get? 1 with
      | none => none
      | some tok => if tok == "" then none else some tok

/-- `authenticateToken` from the middleware (quoted in
`TaskTrack_Architecture_Analysis.md` §3.2.1). `verify` models the
`jwt.verify(token, JWT_SECRET)` call inside the `try` block: `none` covers
every throwing case (malformed, tampered, expired token, or missing
`JWT_SECRET`), which the `catch` maps to 403. A verified token whose user
id resolves to no stored user is rejected with 401 `'Invalid token'`. -/
def authenticateToken (verify : String → Option TokenClaims) (users : List User)
    (authHeader : Option String) : GateResult :=
  match extractToken authHeader with
  | none => .rejected 401 "Access token required"
  | some tok =>
      match verify tok with
      | none => .rejected 403 "Invalid or expired token"
      | some claims =>
          match users.find? (fun u => u.id == claims.userId) with
          | none => .rejected 401 "Invalid token"
          | some u => .ok u

/-- A thrown value reaching the error-handling middleware: an `ApiError`,
a plain JS `Error` (with or without a `statusCode` property — `isApiError`
only tests for the property's presence), or a non-`Error` throwable. -/
inductive Thrown
  | apiError (statusCode : Nat) (message : String) (details : Option String)
  | jsError (message : String) (statusCode : Option Nat)
  | nonError
deriving DecidableEq, Repr

/-- The JSON body + status produced by the error handler. -/
structure ErrResp where
  status : Nat
  message : String
  details : Option String
deriving DecidableEq, Repr

/-- `errorHandler` from `middleware/errorHandler.ts`: anything passing
`isApiError` (an object with a `statusCode` field) is echoed with its own
status, message and details; the CORS error maps to 403 `'Forbidden'`;
any other `Error` yields status 500 with `err.message` as the body
message; a non-`Error` value yields the generic
`'Internal Server Error'`. -/
def errorHandler : Thrown → ErrResp
  | .apiError sc m d => ⟨sc, m, d⟩
  | .jsError m (some sc) => ⟨sc, m, none⟩
  | .jsError m none =>
      if m = "Not allowed by CORS" then ⟨403, "Forbidden", none⟩
      else ⟨500, m, none⟩
  | .nonError => ⟨500, "Internal Server Error", none⟩

/-- A sample stored task, used to instantiate proved theorems at concrete
inputs. -/
def sampleTask : Task := ⟨1, 10, "Write report", none, "pending", "medium", none, 0⟩

/-- A one-task sample store owned by identity 10. -/
def sampleStore : List Task := [sampleTask]

/-- Helper: when task ids are unique, the identity-scoped query of a task
owned by a different identity matches nothing. -/
theorem find_none_of_other_owner (store : List Task) (a b : Nat) (t : Task)
    (hNodup : (store.map Task.id).Nodup) (ht : t ∈ store) (hOwner : t.userId = a)
    (hNe : b ≠ a) :
    store.find? (fun u => u.id == t.id && u.userId == b) = none := by
  rw [List.find?_eq_none]
  intro u hu
  simp only [Bool.and_eq_true, beq_iff_eq, not_and]
  intro hid huser
  have hut : u = t := List.inj_on_of_nodup_map hNodup hu ht hid
  exact hNe (by rw [← huser, hut, hOwner])

/-- Helper: an id carried by no stored task matches nothing. -/
theorem find_none_of_fresh (store : List Task) (b j : Nat)
    (hFresh : ∀ u ∈ store, u.id ≠ j) :
    store.find? (fun u => u.id == j && u.userId == b) = none := by
  rw [List.find?_eq_none]
  intro u hu
  simp only [Bool.and_eq_true, beq_iff_eq, not_and]
  intro hid
  exact absurd hid (hFresh u hu) |> False.elim

/-- Claim C1: a get, update, or delete request by an authenticated identity
`b` for a task owned by a different identity `a` produces exactly the 404
'Task not found' outcome (with the store unchanged), the same outcome as
the request for an id matching no task at all; no distinct forbidden
signal exists. -/
theorem owner_scoping_indistinguishable_from_absent
    (store : List Task) (a b : Nat) (t : Task) (body : UpdateBody) (j : Nat)
    (hNodup : (store.map Task.id).Nodup) (ht : t ∈ store) (hOwner : t.userId = a)
    (hNe : b ≠ a) (hFresh : ∀ u ∈ store, u.id ≠ j) :
    (getOne store b t.id = ⟨404, .msg "Task not found"⟩
      ∧ getOne store b j = ⟨404, .msg "Task not found"⟩)
    ∧ (update store b t.id body = (⟨404, .msg "Task not found"⟩, store)
      ∧ update store b j body = (⟨404, .msg "Task not found"⟩, store))
    ∧ (remove store b t.id = (⟨404, .msg "Task not found"⟩, store)
      ∧ remove store b j = (⟨404, .msg "Task not found"⟩, store)) := by
  have h1 := find_none_of_other_owner store a b t hNodup ht hOwner hNe
  have h2 := find_none_of_fresh store b j hFresh
  refine ⟨⟨?_, ?_⟩, ⟨?_, ?_⟩, ⟨?_, ?_⟩⟩ <;>
    simp [getOne, getTask, update, updateTask, remove, deleteTask, h1, h2]

/-- Claim C1 witness: identity 20 probing identity 10's task (id 1) and a
nonexistent id 2 gets the identical 404 response in both cases. -/
theorem owner_scoping_witness :
    sampleTask ∈ sampleStore ∧ (20 : Nat) ≠ 10
    ∧ getOne sampleStore 20 1 = ⟨404, .msg "Task not found"⟩
    ∧ getOne sampleStore 20 2 = ⟨404, .msg "Task not found"⟩ :=
  ⟨by decide, by decide,
   (owner_scoping_indistinguishable_from_absent sampleStore 10 20 sampleTask {} 2
     (by decide) (by decide) (by decide) (by decide) (by decide)).1.1,
   (owner_scoping_indistinguishable_from_absent sampleStore 10 20 sampleTask {} 2
     (by decide) (by decide) (by decide) (by decide) (by decide)).1.2⟩

/-- Claim C2 counterexample: a token that verifies (the `verify` function
succeeds) but whose user id 5 resolves to no stored user is rejected with
401 'Invalid token' — not with the 403 'Invalid or expired token' outcome
the claim asserts. -/
theorem gate_unresolvable_user_counterexample :
    authenticateToken (fun _ => some ⟨5⟩) [] (some "Bearer sometoken")
      = .rejected 401 "Invalid token"
    ∧ authenticateToken (fun _ => some ⟨5⟩) [] (some "Bearer sometoken")
      ≠ .rejected 403 "Invalid or expired token" := by
  constructor <;> decide

/-- Claim C2 (amended): a verified, unexpired token whose embedded user id
resolves to no stored user is rejected with 401 and message 'Invalid
token', an outcome distinct from the 403 'Invalid or expired token' used
for tampered, malformed, or expired tokens. -/
theorem gate_unresolvable_user_amended (verify : String → Option TokenClaims)
    (users : List User) (h : Option String) (tok : String) (c : TokenClaims)
    (hTok : extractToken h = some tok) (hVer : verify tok = some c)
    (hNoUser : users.find? (fun u => u.id == c.userId) = none) :
    authenticateToken verify users h = .rejected 401 "Invalid token"
    ∧ authenticateToken verify users h ≠ .rejected 403 "Invalid or expired token" := by
  constructor <;> simp [authenticateToken, hTok, hVer, hNoUser]

/-- Claim C2 witness: concrete instance of the amended theorem with an
empty user store. -/
theorem gate_unresolvable_user_witness :
    extractToken (some "Bearer tok0") = some "tok0"
    ∧ authenticateToken (fun _ => some ⟨5⟩) [] (some "Bearer tok0")
      = .rejected 401 "Invalid token" :=
  ⟨by decide,
   (gate_unresolvable_user_amended (fun _ => some ⟨5⟩) [] (some "Bearer tok0") "tok0" ⟨5⟩
     (by decide) rfl (by decide)).1⟩

/-- Claim C3: the gate rejects a request with no bearer token with 401
'Access token required', and a request whose token fails verification with
403 'Invalid or expired token' — the two unauthenticated cases carry
distinct status codes. -/
theorem gate_distinguishes_missing_from_invalid (verify : String → Option TokenClaims)
    (users : List User) (h : Option String) :
    (extractToken h = none →
      authenticateToken verify users h = .rejected 401 "Access token required")
    ∧ (∀ tok, extractToken h = some tok → verify tok = none →
      authenticateToken verify users h = .rejected 403 "Invalid or expired token") := by
  constructor
  · intro hm
    simp [authenticateToken, hm]
  · intro tok htok hv
    simp [authenticateToken, htok, hv]

/-- Claim C3 witness: a request with no Authorization header gets 401, a
request with a garbled bearer token gets 403. -/
theorem gate_distinguishes_witness :
    authenticateToken (fun _ => none) [] none = .rejected 401 "Access token required"
    ∧ authenticateToken (fun _ => none) [] (some "Bearer garbled")
      = .rejected 403 "Invalid or expired token" :=
  ⟨(gate_distinguishes_missing_from_invalid (fun _ => none) [] none).1 rfl,
   (gate_distinguishes_missing_from_invalid (fun _ => none) [] (some "Bearer garbled")).2
     "garbled" (by decide) rfl⟩

/-- Claim C4: a login attempt with an unknown email and one with a known
email but wrong secret produce identical results: status 401, message
'Invalid credentials'. -/
theorem login_failures_identical (users : List User)
    (bcmp : String → String → Bool) (secret : Option String)
    (sign : Nat → String → String) (e1 p1 e2 p2 : String) (u : User)
    (h1 : users.find? (fun v => v.email == e1) = none)
    (h2 : users.find? (fun v => v.email == e2) = some u)
    (h3 : bcmp p2 u.password = false) :
    loginUser users bcmp secret sign e1 p1 = .ok (.failure 401 "Invalid credentials")
    ∧ loginUser users bcmp secret sign e2 p2 = .ok (.failure 401 "Invalid credentials")
    ∧ loginUser users bcmp secret sign e1 p1 = loginUser users bcmp secret sign e2 p2 := by
  have ha : loginUser users bcmp secret sign e1 p1 = .ok (.failure 401 "Invalid credentials") := by
    simp [loginUser, h1]
  have hb : loginUser users bcmp secret sign e2 p2 = .ok (.failure 401 "Invalid credentials") := by
    simp [loginUser, h2, h3]
  exact ⟨ha, hb, ha.trans hb.symm⟩

/-- Claim C4 witness: with one stored user, the unknown-email and
wrong-secret login failures are the same 401 'Invalid credentials'. -/
theorem login_failures_witness :
    loginUser [⟨1, "amy", "amy@example.com", "hash1"⟩] (fun _ _ => false) (some "s")
      (fun _ _ => "tok") "ghost@example.com" "pw"
      = .ok (.failure 401 "Invalid credentials")
    ∧ loginUser [⟨1, "amy", "amy@example.com", "hash1"⟩] (fun _ _ => false) (some "s")
      (fun _ _ => "tok") "amy@example.com" "wrongpw"
      = .ok (.failure 401 "Invalid credentials") :=
  ⟨(login_failures_identical [⟨1, "amy", "amy@example.com", "hash1"⟩] (fun _ _ => false)
      (some "s") (fun _ _ => "tok") "ghost@example.com" "pw" "amy@example.com" "wrongpw"
      ⟨1, "amy", "amy@example.com", "hash1"⟩ (by decide) (by decide) rfl).1,
   (login_failures_identical [⟨1, "amy", "amy@example.com", "hash1"⟩] (fun _ _ => false)
      (some "s") (fun _ _ => "tok") "ghost@example.com" "pw" "amy@example.com" "wrongpw"
      ⟨1, "amy", "amy@example.com", "hash1"⟩ (by decide) (by decide) rfl).2.1⟩

/-- Claim C5: registering a username or email equal to that of an
already-stored user fails with status 400 and leaves the user store
unchanged. -/
theorem register_duplicate_conflict (users : List User) (bhash : String → String)
    (secret : Option String) (sign : Nat → String → String) (newId : Nat)
    (username email password : String) (u : User) (hu : u ∈ users)
    (hdup : u.email = email ∨ u.username = username) :
    (registerUser users bhash secret sign newId username email password).2 = users
    ∧ ∃ m, (registerUser users bhash secret sign newId username email password).1
        = .ok (.failure 400 m) := by
  have hsome : (users.find? fun v => v.email == email || v.username == username).isSome := by
    rw [List.find?_isSome]
    exact ⟨u, hu, by simpa using hdup⟩
  obtain ⟨ex, hex⟩ := Option.isSome_iff_exists.mp hsome
  constructor
  · simp [registerUser, hex]
  · exact ⟨if ex.email = email then "Email already registered" else "Username already taken",
      by simp [registerUser, hex]⟩

/-- Claim C5 witness: re-registering a stored email fails with 400 and the
store is unchanged. -/
theorem register_duplicate_witness :
    (⟨1, "amy", "amy@example.com", "hash1"⟩ : User) ∈ [⟨1, "amy", "amy@example.com", "hash1"⟩]
    ∧ (registerUser [⟨1, "amy", "amy@example.com", "hash1"⟩] id (some "s") (fun _ _ => "tok") 2
        "bob" "amy@example.com" "pw").2 = [⟨1, "amy", "amy@example.com", "hash1"⟩] :=
  ⟨by decide,
   (register_duplicate_conflict [⟨1, "amy", "amy@example.com", "hash1"⟩] id (some "s")
     (fun _ _ => "tok") 2 "bob" "amy@example.com" "pw" ⟨1, "amy", "amy@example.com", "hash1"⟩
     (by decide) (Or.inl rfl)).1⟩

/-- Claim C6 (code bug): through the controller path, a `PUT` body with
`dueDate: null` does NOT clear the stored due date — `taskController.update`
passes `dueDate: req.body.dueDate ?? undefined`, collapsing `null` into
"absent", so the service leaves the field untouched (first conjunct: the
due date 99 survives). The service itself (`updateTask`) and the inline
`PUT /:id` route do clear it when `null` reaches them (second and third
conjuncts), matching the validator's own `allow null to clear` comment —
the controller glue line is the slip. -/
theorem controller_null_dueDate_not_cleared :
    (update [⟨1, 10, "T", none, "pending", "medium", some 99, 0⟩] 10 1
        { dueDate := some none }).2
      = [⟨1, 10, "T", none, "pending", "medium", some 99, 0⟩]
    ∧ (inlinePut [⟨1, 10, "T", none, "pending", "medium", some 99, 0⟩] 10 1
        { dueDate := some none }).2
      = [⟨1, 10, "T", none, "pending", "medium", none, 0⟩]
    ∧ (updateTask [⟨1, 10, "T", none, "pending", "medium", some 99, 0⟩] 10 1
        { dueDate := some none }).2
      = [⟨1, 10, "T", none, "pending", "medium", none, 0⟩] := by
  refine ⟨?_, ?_, ?_⟩ <;> decide

/-- Helper: `find?` with an equality-with-`s` predicate returns `s` itself
whenever `s` is in the list. -/
theorem find_beq_self_of_mem (l : List String) (s : String) (h : s ∈ l) :
    (l.find? fun v => v == s) = some s := by
  induction l with
  | nil => cases h
  | cons a l ih =>
      rcases List.mem_cons.mp h with rfl | h2
      · simp [List.find?]
      · by_cases ha : a = s
        · subst ha
          simp [List.find?]
        · rw [List.find?_cons_of_neg _ (by simpa using ha)]
          exact ih h2

/-- Helper: reading a key's count back out of a `$group` aggregation with
`find(...)?.count || 0` gives exactly the direct count of matching
documents. -/
theorem groupCount_lookup (key : Task → String) (ts : List Task) (s : String) :
    ((((groupCount key ts).find? fun p => p.1 == s).map Prod.snd).getD 0)
      = ts.countP fun t => key t == s := by
  unfold groupCount
  rw [List.find?_map]
  have hcomp : ((fun p : String × Nat => p.1 == s)
      ∘ fun v => (v, ts.countP fun t => key t == v)) = fun v => v == s := rfl
  rw [hcomp]
  by_cases hmem : s ∈ (ts.map key).dedup
  · rw [find_beq_self_of_mem _ _ hmem]
    simp
  · rw [List.find?_eq_none.mpr]
    · show 0 = List.countP _ _
      symm
      rw [List.countP_eq_zero]
      intro t ht hkey
      apply hmem
      rw [List.mem_dedup]
      exact List.mem_map.mpr ⟨t, ht, by simpa using hkey⟩
    · intro v hv
      simp only [beq_iff_eq]
      intro hvs
      exact hmem (hvs ▸ hv)

/-- Claim C7: `getStats` returns `completionRate =
round(completedCount / totalCount * 100)` over the identity's tasks when it
has any, and 0 when it has none (total function — no division error). -/
theorem stats_completionRate_formula (store : List Task) (uid : Nat) :
    (getStats store uid).completionRate =
      (if (store.filter fun t => t.userId == uid).length > 0 then
        round ((((store.filter fun t => t.userId == uid).countP
            fun t => t.status == "completed") : ℚ)
          / (((store.filter fun t => t.userId == uid).length : ℚ)) * 100)
      else 0) := by
  have h := groupCount_lookup Task.status (store.filter fun t => t.userId == uid) "completed"
  simp only [getStats, h]

/-- Claim C8 counterexample: `sortBy=title` is rejected by the
request-validation boundary (`taskValidators.list` only enumerates
createdAt, dueDate, priority), so `title` is not an accepted sortBy
value as the claim asserts. -/
theorem sortBy_title_rejected :
    listQueryValid { sortBy := some "title" } = false := by decide

/-- Claim C8 (amended): a status or priority filter value outside the
enumerated options is silently ignored by `listTasks` (the result equals
the list without that filter); the validation boundary accepts exactly
`sortBy ∈ {createdAt, dueDate, priority}` and `sortOrder ∈ {asc, desc}`. -/
theorem list_filter_and_sort_policy (store : List Task) (uid : Nat) (f : ListFilters) :
    (∀ s, s ∉ validStatuses →
      listTasks store uid { f with status := some s }
        = listTasks store uid { f with status := none })
    ∧ (∀ p, p ∉ validPriorities →
      listTasks store uid { f with priority := some p }
        = listTasks store uid { f with priority := none })
    ∧ (∀ s, listQueryValid { status := none, priority := none, sortBy := some s, sortOrder := none }
        = ["createdAt", "dueDate", "priority"].contains s)
    ∧ (∀ s, listQueryValid { status := none, priority := none, sortBy := none, sortOrder := some s }
        = ["asc", "desc"].contains s) := by
  refine ⟨?_, ?_, ?_, ?_⟩
  · intro s hs
    simp only [listTasks]
    congr 1
    apply List.filter_congr
    intro t _
    simp [statusGuard, hs]
  · intro p hp
    simp only [listTasks]
    congr 1
    apply List.filter_congr
    intro t _
    simp [priorityGuard, hp]
  · intro s
    simp [listQueryValid]
  · intro s
    simp [listQueryValid]

/-- Claim C8 witness: the invalid status filter value `bogus` yields the
same list as no status filter at all. -/
theorem list_filter_policy_witness :
    "bogus" ∉ validStatuses
    ∧ listTasks sampleStore 10 { status := some "bogus" }
      = listTasks sampleStore 10 { status := none } :=
  ⟨by decide, (list_filter_and_sort_policy sampleStore 10 {}).1 "bogus" (by decide)⟩

/-- Claim C9 counterexample: an unexpected `Error` (here the
missing-`JWT_SECRET` exception) has its message echoed verbatim in the 500
response body — internal detail, not a generic message. -/
theorem errorHandler_leaks_counterexample :
    errorHandler (.jsError "JWT_SECRET is not defined in environment variables" none)
      = ⟨500, "JWT_SECRET is not defined in environment variables", none⟩
    ∧ (errorHandler (.jsError "JWT_SECRET is not defined in environment variables" none)).message
      ≠ "Internal Server Error" := by
  constructor <;> decide

/-- Claim C9 (amended): for an unexpected `Error` (no statusCode property,
not the CORS sentinel) the response is status 500 carrying the exception's
own message and no details or stack field; only a non-`Error` throwable
produces the generic 'Internal Server Error'. -/
theorem errorHandler_unexpected_amended (m : String) (hm : m ≠ "Not allowed by CORS") :
    errorHandler (.jsError m none) = ⟨500, m, none⟩
    ∧ errorHandler .nonError = ⟨500, "Internal Server Error", none⟩ := by
  constructor
  · simp [errorHandler, hm]
  · rfl

/-- Claim C9 witness: a driver error message is echoed in the 500 body. -/
theorem errorHandler_unexpected_witness :
    errorHandler (.jsError "connection refused" none) = ⟨500, "connection refused", none⟩ :=
  (errorHandler_unexpected_amended "connection refused" (by decide)).1

/-- Claim C10: when registration hits a duplicate, the 400 message is
'Email already registered' exactly when the matched existing user's email
equals the submitted email, and 'Username already taken' otherwise — the
two conflict causes produce different messages. -/
theorem register_conflict_message_discriminates (users : List User)
    (bhash : String → String) (secret : Option String) (sign : Nat → String → String)
    (newId : Nat) (username email password : String) (ex : User)
    (hfind : users.find? (fun v => v.email == email || v.username == username) = some ex) :
    (registerUser users bhash secret sign newId username email password).1
      = .ok (.failure 400
          (if ex.email = email then "Email already registered" else "Username already taken"))
    ∧ ("Email already registered" : String) ≠ "Username already taken" := by
  constructor
  · simp [registerUser, hfind]
  · decide

/-- Claim C10 witness: a duplicate email gets 'Email already registered',
a duplicate username gets 'Username already taken'. -/
theorem register_conflict_message_witness :
    (registerUser [⟨1, "amy", "amy@example.com", "hash1"⟩] id (some "s") (fun _ _ => "tok") 2
        "bob" "amy@example.com" "pw").1 = .ok (.failure 400 "Email already registered")
    ∧ (registerUser [⟨1, "amy", "amy@example.com", "hash1"⟩] id (some "s") (fun _ _ => "tok") 2
        "amy" "other@example.com" "pw").1 = .ok (.failure 400 "Username already taken") := by
  constructor
  · have h := (register_conflict_message_discriminates [⟨1, "amy", "amy@example.com", "hash1"⟩]
      id (some "s") (fun _ _ => "tok") 2 "bob" "amy@example.com" "pw"
      ⟨1, "amy", "amy@example.com", "hash1"⟩ (by decide)).1
    simpa using h
  · have h := (register_conflict_message_discriminates [⟨1, "amy", "amy@example.com", "hash1"⟩]
      id (some "s") (fun _ _ => "tok") 2 "amy" "other@example.com" "pw"
      ⟨1, "amy", "amy@example.com", "hash1"⟩ (by decide)).1
    simpa using h

end TaskTrack
